import Mathlib

/-!
Verification of `dirigo-thorlabs-detectors`
(`src/dirigo_thorlabs_detectors/dirigo_thorlabs_detectors.py`).

The repository contains two adapter classes implementing the external
framework's `Detector` capability interface:

* `PDA40` — a fixed-function SiPM adapter returning constants and rejecting
  every mutation with `NotImplementedError` (the spec's
  UnsupportedOperation-class failure);
* `PMT2100` — a VISA-addressed PMT controller issuing SCPI text commands
  over a message-based transport.

The transport (a pyvisa resource) and the `dirigo.units` quantity library
are external collaborators; they are modelled from the spec where the
claims depend on them.  The transport is embedded as a pure mock
`Env : String → String` mapping each query command line to its response
line, and every driver operation threads an explicit state recording the
observable event trace (command lines written, queries exchanged, lines
printed to standard output).  Python exceptions become an explicit error
type; side effects performed before a raise persist in the returned state.

A unit quantity is an exact fraction `Qty` (integer numerator over a
natural denominator, produced by the decimal parser without reduction);
its mathematical value is `Qty.toRat`, and — as the spec prescribes —
equality and order between quantities are value-based (`Qty.veq`,
`Qty.vle`), decided by cross-multiplication.
-/

set_option autoImplicit false

namespace ThorlabsDetectors

/-! ### Quantities (`dirigo.units`)

Modelled from the spec: a unit value is "a typed physical quantity
(frequency, voltage, time) parsed from/serialized to instrument text
strings; immutable once constructed; equality and range-membership are
value-based".  Instrument text has the shape `NUM` or `NUM UNIT` where
`NUM` is an unsigned decimal numeral. -/

/-- An exact fraction `num / den` representing a quantity in SI base
units (Hz, V, s).  The parser only produces positive denominators
(powers of ten); equality and order are value-based via `veq`/`vle`. -/
structure Qty where
  num : Int
  den : ℕ
deriving DecidableEq, Repr

/-- The mathematical value of a quantity. -/
def Qty.toRat (q : Qty) : ℚ := (q.num : ℚ) / (q.den : ℚ)

/-- Value-based equality of quantities (cross-multiplication). -/
def Qty.veq (a b : Qty) : Prop := a.num * (b.den : Int) = b.num * (a.den : Int)

instance (a b : Qty) : Decidable (a.veq b) :=
  inferInstanceAs (Decidable (_ = _))

/-- Value-based order on quantities (cross-multiplication). -/
def Qty.vle (a b : Qty) : Prop := a.num * (b.den : Int) ≤ b.num * (a.den : Int)

instance (a b : Qty) : Decidable (a.vle b) :=
  inferInstanceAs (Decidable (_ ≤ _))

/-- Multiply a quantity by a unit scale (no reduction). -/
def Qty.scale (a b : Qty) : Qty := ⟨a.num * b.num, a.den * b.den⟩

/-- Numeric value of a decimal digit character. -/
def digitVal (c : Char) : ℕ := c.toNat - 48

/-- Natural number denoted by a list of decimal digit characters. -/
def natOfDigits (cs : List Char) : ℕ :=
  cs.foldl (fun a c => 10 * a + digitVal c) 0

/-- Split a character list at every occurrence of `sep` (separators dropped). -/
def splitOnChar (sep : Char) : List Char → List (List Char)
  | [] => [[]]
  | c :: cs =>
    match splitOnChar sep cs with
    | [] => if c = sep then [[], [c]] else [[c]]
    | g :: gs => if c = sep then [] :: g :: gs else (c :: g) :: gs

/-- Parse an unsigned decimal numeral such as `80`, `2.5` or `0.75`
into an exact fraction over a power-of-ten denominator. -/
def parseDecimal (cs : List Char) : Option Qty :=
  match splitOnChar (Char.ofNat 46) cs with
  | [w] =>
    if w ≠ [] ∧ w.all Char.isDigit then some ⟨natOfDigits w, 1⟩ else none
  | [w, f] =>
    if w ≠ [] ∧ f ≠ [] ∧ w.all Char.isDigit ∧ f.all Char.isDigit then
      some ⟨natOfDigits w * 10 ^ f.length + natOfDigits f, 10 ^ f.length⟩
    else none
  | _ => none

/-- Modelled from the spec: SI multiplier of a unit suffix understood by
the `dirigo.units` constructors used in this repository. -/
def unitScale (u : List Char) : Option Qty :=
  if u = "MHz".toList then some ⟨1000000, 1⟩
  else if u = "kHz".toList then some ⟨1000, 1⟩
  else if u = "Hz".toList then some ⟨1, 1⟩
  else if u = "V".toList then some ⟨1, 1⟩
  else if u = "mV".toList then some ⟨1, 1000⟩
  else if u = "s".toList then some ⟨1, 1⟩
  else none

/-- Modelled from the spec: parse instrument text (`NUM` or `NUM UNIT`)
into a quantity in SI base units; used for `units.Voltage`,
`units.Frequency` and the range constructors.  Returns `none` where the
Python constructor would raise a parse error. -/
def parseQuantity (t : String) : Option Qty :=
  match (splitOnChar (Char.ofNat 32) t.toList).filter (· ≠ []) with
  | [num] => parseDecimal num
  | [num, u] =>
    match parseDecimal num, unitScale u with
    | some q, some k => some (q.scale k)
    | _, _ => none
  | _ => none

/-- Quantity denoted by a unit-string literal appearing in the source,
e.g. `units.Frequency("80 MHz")`; all such literals parse. -/
def quantity (t : String) : Qty := (parseQuantity t).getD ⟨0, 1⟩

/-- Modelled from the spec: textual rendering of a quantity used in
f-string interpolation.  The exact decimal digits are immaterial to the
claims, which constrain only command sequencing and message shape. -/
def quantityText (q : Qty) : String := toString q.toRat

/-- Modelled from the spec: rendering of `float(value)` inside the
amplitude command f-string; exact digits immaterial to the claims. -/
def pyFloatText (q : Qty) : String := toString q.toRat

/-- Modelled from the spec: `int(resp)` parsing — an optional sign
followed by decimal digits; `none` where Python `int()` would raise. -/
def pyInt (t : String) : Option Int :=
  match t.toList with
  | [] => none
  | c :: cs =>
    if c = Char.ofNat 45 then
      if cs ≠ [] ∧ cs.all Char.isDigit then some (-(natOfDigits cs : Int))
      else none
    else
      if (c :: cs).all Char.isDigit then some (natOfDigits (c :: cs) : Int)
      else none

/-! ### Ranges -/

/-- `units.IntRange`: an inclusive integer `[min, max]` pair. -/
structure IntRange where
  min : Int
  max : Int
deriving DecidableEq, Repr

/-- `units.VoltageRange`: an inclusive voltage `[min, max]` pair. -/
structure VoltageRange where
  min : Qty
  max : Qty
deriving DecidableEq, Repr

/-- Modelled from the spec: range membership is inclusive on both ends
("an inclusive [min, max] pair used to validate a proposed setting"),
compared value-wise. -/
def VoltageRange.within_range (r : VoltageRange) (v : Qty) : Prop :=
  r.min.vle v ∧ v.vle r.max

instance (r : VoltageRange) (v : Qty) : Decidable (r.within_range v) :=
  inferInstanceAs (Decidable (_ ∧ _))

/-! ### Errors

Python exception classes raised (directly or by the modelled
collaborators) during the operations under study. `notImplementedError`
is the failure the spec calls "UnsupportedOperation-class". -/

/-- Exception raised by an operation. -/
inductive Err where
  /-- `ValueError(msg)` -/
  | valueError (msg : String)
  /-- `AttributeError` from accessing a missing attribute. -/
  | attributeError (attr : String)
  /-- `NotImplementedError(msg)` — the UnsupportedOperation-class failure. -/
  | notImplementedError (msg : String)
deriving DecidableEq, Repr

/-! ### PDA40 (fixed-function SiPM adapter) -/

/-- State of a `PDA40` handle: only the model identifier stored at
construction ("No side effects beyond in-memory field storage of the
model identifier at construction"). -/
structure PDA40 where
  model : String
deriving DecidableEq, Repr

/-- `PDA40.__init__(model)`. -/
def PDA40.init (model : String) : PDA40 := ⟨model⟩

/-- `PDA40.enabled` getter: `return True`. -/
def PDA40.enabled_get (_d : PDA40) : Bool := true

/-- `PDA40.enabled` setter: unconditionally raises. -/
def PDA40.enabled_set (d : PDA40) (_value : Bool) : Except Err Unit × PDA40 :=
  (.error (.notImplementedError
      "PDA40 SiPMs cannot be enabled/disabled in software."), d)

/-- `PDA40.gain` getter: unconditionally raises. -/
def PDA40.gain_get (d : PDA40) : Except Err Qty × PDA40 :=
  (.error (.notImplementedError "Gain can not be reported with PDA40 SiPMs"), d)

/-- `PDA40.gain` setter: unconditionally raises. -/
def PDA40.gain_set (d : PDA40) (_value : Qty) : Except Err Unit × PDA40 :=
  (.error (.notImplementedError "Gain is not adjustable with PDA40 SiPMs"), d)

/-- `PDA40.gain_range`: `units.IntRange(min=0, max=9)`. -/
def PDA40.gain_range (_d : PDA40) : IntRange := ⟨0, 9⟩

/-- `PDA40.bandwidth` getter: `units.Frequency("100 MHz")`. -/
def PDA40.bandwidth_get (_d : PDA40) : Qty := quantity "100 MHz"

/-- `PDA40.bandwidth` setter: unconditionally raises. -/
def PDA40.bandwidth_set (d : PDA40) (_value : Qty) : Except Err Unit × PDA40 :=
  (.error (.notImplementedError
      "Bandwidth is not adjustable with PDA40 SiPMs"), d)

/-! ### PMT2100 (VISA-addressed PMT controller)

The pyvisa resource is the external transport.  Modelled from the spec:
"every write is a single ASCII line terminated by a newline; every query
is a write immediately followed by a single blocking line read, decoded
as ASCII with non-decodable bytes ignored, and trimmed of surrounding
whitespace".  The mock transport is a pure function `Env` from the query
command line to the (already trimmed) response line; the driver state
records the observable event trace. -/

/-- Mock transport: response line answered to each query command line. -/
abbrev Env := String → String

/-- Observable event at the driver boundary. -/
inductive Ev where
  /-- A command line written to the transport. -/
  | write (cmd : String)
  /-- A query exchange: command line written, response line read. -/
  | query (cmd : String) (resp : String)
  /-- A line printed to standard output. -/
  | printLn (txt : String)
  /-- The transport resource closed. -/
  | closeRes
deriving DecidableEq, Repr

/-- State of a `PMT2100` handle: the cached sensor-head identifier
(`self._sensor`), the assigned channel index (`self._index`), and the
event trace accumulated so far. -/
structure PMT2100 where
  sensor : String
  index : Int
  trace : List Ev
deriving DecidableEq, Repr

/-- `self._res.write(cmd)`: append one write event. -/
def Res.write (cmd : String) (s : PMT2100) : PMT2100 :=
  { s with trace := s.trace ++ [Ev.write cmd] }

/-- `self._res.query(cmd)`: one write-then-read exchange; the response is
whatever the mock transport answers to `cmd`. -/
def Res.query (env : Env) (cmd : String) (s : PMT2100) : String × PMT2100 :=
  (env cmd, { s with trace := s.trace ++ [Ev.query cmd (env cmd)] })

/-- `print(txt)`: append one standard-output event. -/
def pyPrint (txt : String) (s : PMT2100) : PMT2100 :=
  { s with trace := s.trace ++ [Ev.printLn txt] }

/-- `PMT2100.__init__(serial_number, timeout)`: opens the VISA resource
(transport-level, no SCPI traffic), sets the timeout, queries
`SENS:DET?` caching the sensor-head identifier, then sets
`self._index = -1`. -/
def PMT2100.init (env : Env) (_serial_number : Int) : PMT2100 :=
  let s0 : PMT2100 := { sensor := "", index := 0, trace := [] }
  let (resp, s1) := Res.query env "SENS:DET?" s0
  { s1 with sensor := resp, index := -1 }

/-- `PMT2100.close()`: `self._res.close()`. -/
def PMT2100.close (s : PMT2100) : PMT2100 :=
  { s with trace := s.trace ++ [Ev.closeRes] }

/-- `PMT2100.enabled` getter: queries `SENS:FUNC:STAT? {sensor}`, prints
the raw response, and returns `resp == "1"`. -/
def PMT2100.enabled_get (env : Env) (s : PMT2100) : Bool × PMT2100 :=
  let (resp, s1) := Res.query env ("SENS:FUNC:STAT? " ++ s.sensor) s
  let s2 := pyPrint resp s1
  (resp == "1", s2)

/-- `PMT2100.enabled` setter: writes `SENS:FUNC:ON {sensor}` or
`SENS:FUNC:OFF {sensor}`; no read-back. -/
def PMT2100.enabled_set (state : Bool) (s : PMT2100) : PMT2100 :=
  let cmd := if state then "SENS:FUNC:ON " ++ s.sensor
             else "SENS:FUNC:OFF " ++ s.sensor
  Res.write cmd s

/-- `PMT2100.gain` getter: writes `INST:SEL GAIN`, queries
`:SOUR:VOLT:LEV:IMM:AMPL?`, and returns `units.Voltage(resp)`
(a parse failure raises, after both transport operations). -/
def PMT2100.gain_get (env : Env) (s : PMT2100) : Except Err Qty × PMT2100 :=
  let s1 := Res.write "INST:SEL GAIN" s
  let (resp, s2) := Res.query env ":SOUR:VOLT:LEV:IMM:AMPL?" s1
  match parseQuantity resp with
  | some v => (.ok v, s2)
  | none => (.error (.valueError ("could not parse voltage: " ++ resp)), s2)

/-- `PMT2100.gain_range`: `units.VoltageRange(min="0.5 V", max="1 V")`. -/
def PMT2100.gain_range (_s : PMT2100) : VoltageRange :=
  ⟨quantity "0.5 V", quantity "1 V"⟩

/-- The `ValueError` message of the gain setter:
`f"Gain voltage must be between {l} and {h}"` with `l`, `h` the bounds of
`gain_range`. -/
def gainErrMsg (s : PMT2100) : String :=
  "Gain voltage must be between " ++ quantityText (PMT2100.gain_range s).min
    ++ " and " ++ quantityText (PMT2100.gain_range s).max

/-- `PMT2100.gain` setter: validates against `gain_range.within_range`
before any transport operation; on success writes `INST:SEL GAIN` then
the amplitude command with `float(value)` interpolated. -/
def PMT2100.gain_set (value : Qty) (s : PMT2100) : Except Err Unit × PMT2100 :=
  if ¬ (PMT2100.gain_range s).within_range value then
    (.error (.valueError (gainErrMsg s)), s)
  else
    let s1 := Res.write "INST:SEL GAIN" s
    let s2 := Res.write (":SOUR:VOLT:LEV:IMM:AMPL " ++ pyFloatText value) s1
    (.ok (), s2)

/-- `PMT2100.bandwidth` getter: evaluates `self._res._query(...)`.
Modelled from the spec: "the VISA-variant bandwidth getter/setter in the
source calls a private method name that does not exist on the VISA
resource object" — the attribute lookup `self._res._query` raises an
`AttributeError` before any transport traffic (Python resolves the
attribute before evaluating the call's argument). -/
def PMT2100.bandwidth_get (_env : Env) (s : PMT2100) : Except Err Qty × PMT2100 :=
  (.error (.attributeError "_query"), s)

/-- The supported low-pass corner frequencies of the bandwidth setter:
`(units.Frequency("80 MHz"), units.Frequency("2.5 MHz"),
units.Frequency("0.25 MHz"))`. -/
def supportedBandwidths : List Qty :=
  [quantity "80 MHz", quantity "2.5 MHz", quantity "0.25 MHz"]

/-- `PMT2100.bandwidth` setter: membership check against the three
supported corner frequencies (`units.Frequency` equality is value-based),
raising `ValueError` on any other value; on a supported value it
evaluates `self._res._write(...)`, whose attribute lookup raises an
`AttributeError` (modelled from the spec, as for the getter) before any
transport traffic. -/
def PMT2100.bandwidth_set (freq : Qty) (s : PMT2100) : Except Err Unit × PMT2100 :=
  if ¬ supportedBandwidths.any (fun f => decide (freq.veq f)) then
    (.error (.valueError "Bandwidth must be one of: 80, 2.5, 0.25 (MHz)"), s)
  else
    (.error (.attributeError "_write"), s)

/-- `PMT2100.identify()`: returns `self._res.query("*IDN?")` unmodified. -/
def PMT2100.identify (env : Env) (s : PMT2100) : String × PMT2100 :=
  Res.query env "*IDN?" s

/-- `PMT2100.status_byte()`: queries `*STB?` and returns `int(resp)`
(a parse failure raises, after the exchange). -/
def PMT2100.status_byte (env : Env) (s : PMT2100) : Except Err Int × PMT2100 :=
  let (resp, s1) := Res.query env "*STB?" s
  match pyInt resp with
  | some n => (.ok n, s1)
  | none => (.error (.valueError ("invalid literal for int: " ++ resp)), s1)

/-! ### Value interpretation lemmas -/

/-- Value-based order agrees with the order of mathematical values when
denominators are positive (as for every parser-produced quantity). -/
theorem Qty.vle_iff_toRat {a b : Qty} (ha : 0 < a.den) (hb : 0 < b.den) :
    a.vle b ↔ a.toRat ≤ b.toRat := by
  have ha' : (0 : ℚ) < (a.den : ℚ) := by exact_mod_cast ha
  have hb' : (0 : ℚ) < (b.den : ℚ) := by exact_mod_cast hb
  unfold Qty.vle Qty.toRat
  rw [div_le_div_iff₀ ha' hb']
  constructor <;> intro h <;> exact_mod_cast h

/-- Value-based equality agrees with equality of mathematical values when
denominators are positive (as for every parser-produced quantity). -/
theorem Qty.veq_iff_toRat {a b : Qty} (ha : 0 < a.den) (hb : 0 < b.den) :
    a.veq b ↔ a.toRat = b.toRat := by
  have ha' : ((a.den : ℚ)) ≠ 0 := by positivity
  have hb' : ((b.den : ℚ)) ≠ 0 := by positivity
  unfold Qty.veq Qty.toRat
  rw [div_eq_div_iff ha' hb']
  constructor <;> intro h <;> exact_mod_cast h

/-! ### Claims -/

/-- C7: for the PDA40 adapter, every read of `gain_range` returns the
fixed closed integer interval `[0, 9]`, independent of construction
arguments and of any prior operations (the state is arbitrary). -/
theorem PDA40.gain_range_spec : ∀ d : PDA40, PDA40.gain_range d = ⟨0, 9⟩ := by
  intro d
  rfl

/-- C4: for the fixed-function PDA40 adapter and every input value, the
`enabled` getter returns `true`, and the `enabled`, `gain` and
`bandwidth` setters (and the `gain` getter) always raise the
UnsupportedOperation-class (`NotImplementedError`) failure, leaving the
handle state unchanged and performing no other side effect. -/
theorem PDA40.fixed_function_spec :
    ∀ (d : PDA40) (b : Bool) (v f : Qty),
      PDA40.enabled_get d = true ∧
      PDA40.enabled_set d b =
        (.error (.notImplementedError
          "PDA40 SiPMs cannot be enabled/disabled in software."), d) ∧
      PDA40.gain_get d =
        (.error (.notImplementedError
          "Gain can not be reported with PDA40 SiPMs"), d) ∧
      PDA40.gain_set d v =
        (.error (.notImplementedError
          "Gain is not adjustable with PDA40 SiPMs"), d) ∧
      PDA40.bandwidth_set d f =
        (.error (.notImplementedError
          "Bandwidth is not adjustable with PDA40 SiPMs"), d) := by
  intro d b v f
  exact ⟨rfl, rfl, rfl, rfl, rfl⟩

/-- C5: the PMT2100 `enabled` getter returns `true` exactly when the
transport's response line to the state query is the literal `"1"`
(and `false` for every other response); in particular after
`enabled = true` a read returns `true` precisely when the transport
echoes `"1"` to the state query. -/
theorem PMT2100.enabled_roundtrip_spec :
    ∀ (env : Env) (s : PMT2100),
      (PMT2100.enabled_get env s).1 =
        (env ("SENS:FUNC:STAT? " ++ s.sensor) == "1") ∧
      ((PMT2100.enabled_get env s).1 = true ↔
        env ("SENS:FUNC:STAT? " ++ s.sensor) = "1") ∧
      (PMT2100.enabled_get env (PMT2100.enabled_set true s)).1 =
        (env ("SENS:FUNC:STAT? " ++ s.sensor) == "1") := by
  intro env s
  refine ⟨rfl, ?_, rfl⟩
  simp [PMT2100.enabled_get, Res.query]

/-- C10: every read of the PMT2100 `enabled` property, besides returning
the parsed boolean, prints the raw transport response to standard output:
the resulting trace extends the old one with the query exchange followed
by a `printLn` of that same raw response. -/
theorem PMT2100.enabled_get_prints_spec :
    ∀ (env : Env) (s : PMT2100),
      (PMT2100.enabled_get env s).2 =
        { s with trace := s.trace ++
            [Ev.query ("SENS:FUNC:STAT? " ++ s.sensor)
               (env ("SENS:FUNC:STAT? " ++ s.sensor)),
             Ev.printLn (env ("SENS:FUNC:STAT? " ++ s.sensor))] } := by
  intro env s
  simp [PMT2100.enabled_get, Res.query, pyPrint]

/-- C8: `identify()` sends the `*IDN?` query and returns exactly the
response string produced by the transport, unmodified; the only side
effect is the query exchange itself. -/
theorem PMT2100.identify_raw_spec :
    ∀ (env : Env) (s : PMT2100),
      PMT2100.identify env s =
        (env "*IDN?",
         { s with trace := s.trace ++ [Ev.query "*IDN?" (env "*IDN?")] }) := by
  intro env s
  rfl

/-- C3: the PMT2100 `bandwidth` getter never reaches the transport: it
evaluates the nonexistent attribute `self._res._query` and raises an
`AttributeError` for every transport and every state, instead of querying
the low-pass corner frequency and parsing the response. -/
theorem PMT2100.bandwidth_get_missing_query :
    ∀ (env : Env) (s : PMT2100),
      PMT2100.bandwidth_get env s = (.error (.attributeError "_query"), s) := by
  intro env s
  rfl

/-- C2: the PMT2100 `bandwidth` setter, applied to each of the three
supported corner frequencies, raises an `AttributeError` (the
nonexistent `self._res._write`) with no transport write, instead of
issuing the filter-frequency command; an unsupported frequency (1 MHz)
is still rejected with the `ValueError` and no transport write. -/
theorem PMT2100.bandwidth_set_missing_write :
    ∀ s : PMT2100,
      PMT2100.bandwidth_set (quantity "80 MHz") s =
        (.error (.attributeError "_write"), s) ∧
      PMT2100.bandwidth_set (quantity "2.5 MHz") s =
        (.error (.attributeError "_write"), s) ∧
      PMT2100.bandwidth_set (quantity "0.25 MHz") s =
        (.error (.attributeError "_write"), s) ∧
      PMT2100.bandwidth_set ⟨1000000, 1⟩ s =
        (.error (.valueError "Bandwidth must be one of: 80, 2.5, 0.25 (MHz)"), s) := by
  intro s
  exact ⟨rfl, rfl, rfl, rfl⟩

/-- C9: construction leaves the assigned channel index at the sentinel
`-1`, and no operation of the class ever changes the index field: it
stays as assigned until set externally by the managing collection. -/
theorem PMT2100.index_sentinel_invariant :
    (∀ (env : Env) (sn : Int), (PMT2100.init env sn).index = -1) ∧
    (∀ (env : Env) (s : PMT2100),
      ((PMT2100.enabled_get env s).2).index = s.index) ∧
    (∀ (b : Bool) (s : PMT2100), (PMT2100.enabled_set b s).index = s.index) ∧
    (∀ (env : Env) (s : PMT2100),
      ((PMT2100.gain_get env s).2).index = s.index) ∧
    (∀ (v : Qty) (s : PMT2100), ((PMT2100.gain_set v s).2).index = s.index) ∧
    (∀ (env : Env) (s : PMT2100),
      ((PMT2100.bandwidth_get env s).2).index = s.index) ∧
    (∀ (f : Qty) (s : PMT2100),
      ((PMT2100.bandwidth_set f s).2).index = s.index) ∧
    (∀ (env : Env) (s : PMT2100),
      ((PMT2100.identify env s).2).index = s.index) ∧
    (∀ (env : Env) (s : PMT2100),
      ((PMT2100.status_byte env s).2).index = s.index) ∧
    (∀ s : PMT2100, (PMT2100.close s).index = s.index) := by
  refine ⟨fun env sn => rfl, fun env s => rfl, ?_, ?_, ?_, fun env s => rfl,
    ?_, fun env s => rfl, ?_, fun s => rfl⟩
  · intro b s
    unfold PMT2100.enabled_set
    split <;> rfl
  · intro env s
    simp only [PMT2100.gain_get, Res.write, Res.query]
    cases parseQuantity (env ":SOUR:VOLT:LEV:IMM:AMPL?") <;> rfl
  · intro v s
    unfold PMT2100.gain_set
    split <;> rfl
  · intro f s
    unfold PMT2100.bandwidth_set
    split <;> rfl
  · intro env s
    simp only [PMT2100.status_byte, Res.query]
    cases pyInt (env "*STB?") <;> rfl

/-- C1: the PMT2100 `gain` setter rejects any value outside the code's
closed range check with a `ValueError` whose message interpolates both
bounds, issuing no transport write (state unchanged); any value passing
the check issues exactly one channel-select write followed by one
amplitude-set write.  The bounds evaluate to 0.5 V and 1 V, and for a
genuine voltage (positive denominator) the code's check holds exactly on
the closed interval [0.5, 1] of mathematical values. -/
theorem PMT2100.gain_set_spec :
    ∀ (v : Qty) (s : PMT2100),
      (¬ (PMT2100.gain_range s).within_range v →
        PMT2100.gain_set v s = (.error (.valueError (gainErrMsg s)), s)) ∧
      ((PMT2100.gain_range s).within_range v →
        PMT2100.gain_set v s =
          (.ok (), { s with trace := s.trace ++
              [Ev.write "INST:SEL GAIN",
               Ev.write (":SOUR:VOLT:LEV:IMM:AMPL " ++ pyFloatText v)] })) ∧
      (∃ a b c, gainErrMsg s =
        a ++ (quantityText (PMT2100.gain_range s).min ++
          (b ++ (quantityText (PMT2100.gain_range s).max ++ c)))) ∧
      (PMT2100.gain_range s).min.toRat = 1 / 2 ∧
      (PMT2100.gain_range s).max.toRat = 1 ∧
      (0 < v.den →
        ((PMT2100.gain_range s).within_range v ↔
          1 / 2 ≤ v.toRat ∧ v.toRat ≤ 1)) := by
  intro v s
  have hmin : (PMT2100.gain_range s).min = ⟨5, 10⟩ := rfl
  have hmax : (PMT2100.gain_range s).max = ⟨1, 1⟩ := rfl
  have emin : (PMT2100.gain_range s).min.toRat = 1 / 2 := by
    rw [hmin]; norm_num [Qty.toRat]
  have emax : (PMT2100.gain_range s).max.toRat = 1 := by
    rw [hmax]; norm_num [Qty.toRat]
  refine ⟨?_, ?_, ?_, emin, emax, ?_⟩
  · intro h
    unfold PMT2100.gain_set
    rw [if_pos h]
  · intro h
    unfold PMT2100.gain_set
    rw [if_neg (by simpa using h)]
    simp [Res.write, List.append_assoc]
  · refine ⟨"Gain voltage must be between ", " and ", "", ?_⟩
    simp [gainErrMsg, String.append_assoc]
  · intro hv
    unfold VoltageRange.within_range
    rw [Qty.vle_iff_toRat (by rw [hmin]; norm_num) hv,
      Qty.vle_iff_toRat hv (by rw [hmax]; norm_num), emin, emax]

/-- Witness for C1: with sensor `H10721` and an empty trace, setting the
gain to 2 V fails with the bounds-bearing `ValueError` and leaves the
state unchanged, while setting it to 0.75 V issues exactly the
channel-select write followed by the amplitude write; the code's range
check at 0.75 V coincides with membership of 3/4 in [1/2, 1]. -/
theorem PMT2100.gain_set_spec_check :
    PMT2100.gain_set ⟨2, 1⟩ ⟨"H10721", -1, []⟩ =
      (.error (.valueError (gainErrMsg ⟨"H10721", -1, []⟩)), ⟨"H10721", -1, []⟩) ∧
    PMT2100.gain_set ⟨75, 100⟩ ⟨"H10721", -1, []⟩ =
      (.ok (), ⟨"H10721", -1,
        [Ev.write "INST:SEL GAIN",
         Ev.write (":SOUR:VOLT:LEV:IMM:AMPL " ++ pyFloatText ⟨75, 100⟩)]⟩) ∧
    ((PMT2100.gain_range ⟨"H10721", -1, []⟩).within_range ⟨75, 100⟩ ↔
      1 / 2 ≤ (Qty.mk 75 100).toRat ∧ (Qty.mk 75 100).toRat ≤ 1) :=
  ⟨(PMT2100.gain_set_spec ⟨2, 1⟩ ⟨"H10721", -1, []⟩).1 (by decide),
   (PMT2100.gain_set_spec ⟨75, 100⟩ ⟨"H10721", -1, []⟩).2.1 (by decide),
   (PMT2100.gain_set_spec ⟨75, 100⟩ ⟨"H10721", -1, []⟩).2.2.2.2.2 (by decide)⟩

/-- C6: every read of the PMT2100 `gain` property first writes the
channel-select command, then queries the immediate voltage amplitude,
and returns the response parsed as a voltage; the response `"0.75"`
parses to the quantity 75/100, whose value is 3/4 V. -/
theorem PMT2100.gain_get_spec :
    (∀ (env : Env) (s : PMT2100) (v : Qty),
      parseQuantity (env ":SOUR:VOLT:LEV:IMM:AMPL?") = some v →
        PMT2100.gain_get env s =
          (.ok v, { s with trace := s.trace ++
              [Ev.write "INST:SEL GAIN",
               Ev.query ":SOUR:VOLT:LEV:IMM:AMPL?"
                 (env ":SOUR:VOLT:LEV:IMM:AMPL?")] })) ∧
    parseQuantity "0.75" = some ⟨75, 100⟩ ∧
    (Qty.mk 75 100).toRat = 3 / 4 := by
  refine ⟨?_, by decide, by norm_num [Qty.toRat]⟩
  intro env s v h
  unfold PMT2100.gain_get
  simp [Res.write, Res.query, h, List.append_assoc]

/-- Witness for C6: on a mock transport echoing `"0.75"` to every query
and a handle with sensor `H10721` and empty trace, the `gain` getter
returns the quantity 75/100 and the trace holds exactly the
channel-select write followed by the amplitude query. -/
theorem PMT2100.gain_get_spec_check :
    PMT2100.gain_get (fun _ => "0.75") ⟨"H10721", -1, []⟩ =
      (.ok ⟨75, 100⟩, ⟨"H10721", -1,
        [Ev.write "INST:SEL GAIN",
         Ev.query ":SOUR:VOLT:LEV:IMM:AMPL?" "0.75"]⟩) :=
  PMT2100.gain_get_spec.1 (fun _ => "0.75") ⟨"H10721", -1, []⟩ ⟨75, 100⟩
    (by decide)

end ThorlabsDetectors
